import Mathlib

/-!
# Sumo Logic provider: ingest budget and polling source resource handlers

A shallow embedding of `resource_sumologic_ingest_budget_v2.go` and
`resource_sumologic_polling_source.go`, followed by theorems about the
expand/flatten translations and the Create/Read/Update/Delete callbacks.

Conventions of the embedding:

* A Go value of type `interface{}` is a `Value`.  A Go slice is a Lean list, so
  a nil slice and an empty slice are the same list, and `[]string` is the list
  of its strings (the attribute store normalises both on the way in).
* A Go `map[string]interface{}` is an association list; a composite literal is
  the list of its entries in the order of the source text.
* A Go `error` is `Option String`: `none` is `nil`, `some msg` an error with
  that message.
* A Go call that may panic (a failed type assertion) returns `Option`, `none`
  being the panic.  So a Go function of result `(T, error)` has result
  `Option (T × Option String)`.
* A Go `int` is an `Int`; the only place its width matters is `Atoi`, which
  clamps to 64 bits.
* A field called `Type` in Go is called `Typ` here (`Type` is reserved).
-/

namespace Sumologic

/-! ## Values of the attribute store -/

/-- A dynamically typed Go value, as handed out by `d.Get`. -/
inductive Value where
  | null : Value
  | str : String → Value
  | int : Int → Value
  | bool : Bool → Value
  | list : List Value → Value
  | map : List (String × Value) → Value

namespace Value

/-- Type assertion `v.(string)`. -/
def asString : Value → Option String
  | str s => some s
  | _ => none

/-- Type assertion `v.(int)`. -/
def asInt : Value → Option Int
  | int n => some n
  | _ => none

/-- Type assertion `v.(bool)`. -/
def asBool : Value → Option Bool
  | bool b => some b
  | _ => none

/-- Type assertion `v.([]interface{})`. -/
def asList : Value → Option (List Value)
  | list xs => some xs
  | _ => none

/-- Type assertion `v.(map[string]interface{})`. -/
def asMap : Value → Option (List (String × Value))
  | map kv => some kv
  | _ => none

end Value

/-- Index expression `m[k]` followed by a type assertion: a missing key gives the
nil interface, on which every assertion fails. -/
def index (m : List (String × Value)) (k : String) : Value :=
  (m.lookup k).getD Value.null

/-- The loop `for i, v := range raw { out[i] = v.(string) }`. -/
def toStrings : List Value → Option (List String)
  | [] => some []
  | v :: vs =>
    match v.asString with
    | none => none
    | some s =>
      match toStrings vs with
      | none => none
      | some ss => some (s :: ss)

/-- A `[]string` stored as an `interface{}`. -/
def ofStrings (ss : List String) : Value :=
  Value.list (ss.map Value.str)

/-! ## The resource data handle -/

/-- The part of `schema.ResourceData` the handlers use: the identifier and the
attribute values. -/
structure ResourceData where
  id : String
  attrs : List (String × Value)

namespace ResourceData

/-- Go `d.Id()`. -/
def Id (d : ResourceData) : String := d.id

/-- Go `d.SetId(v)`. -/
def SetId (d : ResourceData) (v : String) : ResourceData :=
  { d with id := v }

/-- Go `d.Get(key)`.  An attribute the store does not hold reads as the nil
interface; the theorems state the type of each attribute they rely on, which is
the type the host hands out for a field of the schema. -/
def Get (d : ResourceData) (key : String) : Value :=
  index d.attrs key

/-- Replace the value stored under `key`, or add the entry. -/
def store (key : String) (v : Value) : List (String × Value) → List (String × Value)
  | [] => [(key, v)]
  | (k, w) :: rest => if k = key then (key, v) :: rest else (k, w) :: store key v rest

/-- Go `d.Set(key, value)`.  The schema writer of the host decides whether the
value fits the field: `reject key value` is its error, if any.  A rejected value
is not written and the error comes back. -/
def Set (reject : String → Value → Option String) (d : ResourceData) (key : String)
    (v : Value) : ResourceData × Option String :=
  match reject key v with
  | none => ({ d with attrs := store key v d.attrs }, none)
  | some e => (d, some e)

end ResourceData

/-! ## Domain records

The record types are declared next to the API client; their fields are the ones
the handlers read and write.  Field defaults are the Go zero values, so `{}` is
the zero record. -/

/-- Modelled from the spec: the record type `IngestBudgetV2` (spec §3), declared outside the
files at hand; the fields are the ones the handlers read and write. -/
structure IngestBudgetV2 where
  ID : String := ""
  Name : String := ""
  Scope : String := ""
  Timezone : String := ""
  ResetTime : String := ""
  AuditThreshold : Int := 0
  Description : String := ""
  Action : String := ""
  CapacityBytes : Int := 0

/-- Modelled from the spec: the record type `TagFilter` (spec §3), declared outside the
files at hand; the fields are the ones the handlers read and write. -/
structure TagFilter where
  Typ : String := ""
  Namespace : String := ""
  Tags : List String := []

/-- Modelled from the spec: the record type `PollingPath` (spec §3), declared outside the
files at hand; the fields are the ones the handlers read and write. -/
structure PollingPath where
  Typ : String := ""
  BucketName : String := ""
  PathExpression : String := ""
  LimitToRegions : List String := []
  LimitToNamespaces : List String := []
  TagFilters : List TagFilter := []

/-- Modelled from the spec: the record type `PollingAuthentication` (spec §3), declared outside the
files at hand; the fields are the ones the handlers read and write. -/
structure PollingAuthentication where
  Typ : String := ""
  AwsID : String := ""
  AwsKey : String := ""
  RoleARN : String := ""

/-- Modelled from the spec: the record type `PollingResource` (spec §3), declared outside the
files at hand; the fields are the ones the handlers read and write. -/
structure PollingResource where
  ServiceType : String := ""
  Authentication : PollingAuthentication := {}
  Path : PollingPath := {}

/-- Modelled from the spec: the record type `PollingThirdPartyRef` (spec §3), declared outside the
files at hand; the fields are the ones the handlers read and write. -/
structure PollingThirdPartyRef where
  Resources : List PollingResource := []

/-- Modelled from the spec: the generic "Source" record embedded in a polling
source (spec §3), declared outside the files at hand.  The handlers assign its
`Type` and pass the rest through, so the rest is kept as an attribute list. -/
structure Source where
  Typ : String := ""
  fields : List (String × Value) := []

/-- Modelled from the spec: the record type `PollingSource` (spec §3), declared outside the
files at hand; the fields are the ones the handlers read and write. -/
structure PollingSource where
  Source : Source := {}
  ContentType : String := ""
  ScanInterval : Int := 0
  Paused : Bool := false
  URL : String := ""
  ThirdPartyRef : PollingThirdPartyRef := {}

/-! ## Collaborators -/

/-- One call of an API client method, with its arguments. -/
inductive Call where
  | createIngestBudgetV2 (b : IngestBudgetV2)
  | getIngestBudgetV2 (id : String)
  | deleteIngestBudgetV2 (id : String)
  | updateIngestBudgetV2 (b : IngestBudgetV2)
  | createPollingSource (s : PollingSource) (collectorID : Int)
  | updatePollingSource (s : PollingSource) (collectorID : Int)
  | getPollingSource (collectorID : Int) (sourceID : Int)

/-- The API client.  Each method answers from the calls made so far and its
arguments, so a client is one behaviour of the remote service; a pointer result
is an `Option`, `none` being `nil`. -/
structure Client where
  CreateIngestBudgetV2 : List Call → IngestBudgetV2 → String × Option String
  GetIngestBudgetV2 : List Call → String → Option IngestBudgetV2 × Option String
  DeleteIngestBudgetV2 : List Call → String → Option String
  UpdateIngestBudgetV2 : List Call → IngestBudgetV2 → Option String
  CreatePollingSource : List Call → PollingSource → Int → Int × Option String
  UpdatePollingSource : List Call → PollingSource → Int → Option String
  GetPollingSource : List Call → Int → Int → Option PollingSource × Option String

/-- What the handlers use from outside the two files: the schema writer behind
`d.Set` and the two helpers of the generic source handler (`resourceToSource`,
which may panic on an ill-typed attribute, and `resourceSumologicSourceRead`,
which writes the generic fields and may fail). -/
structure Host where
  reject : String → Value → Option String
  resourceToSource : ResourceData → Option Source
  resourceSumologicSourceRead : ResourceData → Source → Option (ResourceData × Option String)

/-- What a callback leaves behind when it returns: the resource data, the client
calls made so far and the returned error. -/
structure Outcome where
  d : ResourceData
  calls : List Call
  err : Option String

/-! ## Identifier conversion (`strconv`) -/

/-- The decimal digit character of `n < 10`. -/
def digitChar (n : Nat) : Char := Char.ofNat (48 + n)

/-- Decimal digits of a natural number, most significant first. -/
def natDigits (n : Nat) : List Char :=
  if _h : n < 10 then [digitChar n] else natDigits (n / 10) ++ [digitChar (n % 10)]
termination_by n
decreasing_by omega

/-- Go `strconv.Itoa`. -/
def Itoa (n : Int) : String :=
  if n < 0 then String.mk ('-' :: natDigits n.natAbs) else String.mk (natDigits n.toNat)

/-- The value of a decimal digit character. -/
def digitVal (c : Char) : Option Nat :=
  if 48 ≤ c.toNat ∧ c.toNat ≤ 57 then some (c.toNat - 48) else none

/-- Accumulate decimal digits; `none` on a character that is not a digit. -/
def parseLoop : Nat → List Char → Option Nat
  | acc, [] => some acc
  | acc, c :: cs =>
    match digitVal c with
    | none => none
    | some v => parseLoop (acc * 10 + v) cs

/-- An unsigned decimal numeral: at least one character, digits only. -/
def parseDigits (cs : List Char) : Option Nat :=
  if cs = [] then none else parseLoop 0 cs

/-- Go `strconv.Atoi` for a 64-bit `int`: an optional sign and decimal digits.  A
syntax error gives `0`, a value out of range gives the nearest bound, both with
an error. -/
def Atoi (s : String) : Int × Option String :=
  match s.data with
  | [] => (0, some "invalid syntax")
  | c :: cs =>
    let neg := decide (c = '-')
    let body := if c = '-' ∨ c = '+' then cs else c :: cs
    match parseDigits body with
    | none => (0, some "invalid syntax")
    | some m =>
      if neg then
        if m > 2 ^ 63 then (-(2 ^ 63), some "value out of range") else (-(m : Int), none)
      else
        if m ≥ 2 ^ 63 then (2 ^ 63 - 1, some "value out of range") else ((m : Int), none)

/-! ## Polling source: expand and flatten -/

/-- Go `flattenTagFilters`. -/
def flattenTagFilters (v : List TagFilter) : List (List (String × Value)) :=
  v.map fun d =>
    [("type", Value.str d.Typ),
     ("namespace", Value.str d.Namespace),
     ("tags", ofStrings d.Tags)]

/-- Go `getThirdPartyPathAttributes`. -/
def getThirdPartyPathAttributes (pollingResource : List PollingResource) :
    List (List (String × Value)) :=
  pollingResource.map fun t =>
    [("type", Value.str t.Path.Typ),
     ("bucket_name", Value.str t.Path.BucketName),
     ("path_expression", Value.str t.Path.PathExpression),
     ("limit_to_regions", ofStrings t.Path.LimitToRegions),
     ("limit_to_namespaces", ofStrings t.Path.LimitToNamespaces),
     ("tag_filters", Value.list ((flattenTagFilters t.Path.TagFilters).map Value.map))]

/-- The loop of `getTagFilters` over the raw `tag_filters` entries. -/
def tagFilterLoop : List Value → Option (List TagFilter)
  | [] => some []
  | rawConfig :: rest => do
    let config ← rawConfig.asMap
    let ty ← (index config "type").asString
    let ns ← (index config "namespace").asString
    let rawTags ← (index config "tags").asList
    let tags ← toStrings rawTags
    let filters ← tagFilterLoop rest
    some ({ Typ := ty, Namespace := ns, Tags := tags } :: filters)

/-- Go `getTagFilters`. -/
def getTagFilters (d : ResourceData) : Option (List TagFilter) := do
  let paths ← (d.Get "path").asList
  let first ← paths.head?
  let path ← first.asMap
  let rawTagFilterConfig ← (index path "tag_filters").asList
  tagFilterLoop rawTagFilterConfig

/-- Go `getAuthentication`. -/
def getAuthentication (d : ResourceData) : Option (PollingAuthentication × Option String) := do
  let auths ← (d.Get "authentication").asList
  let authSettings : PollingAuthentication := {}
  match auths with
  | [] => some (authSettings, none)
  | first :: _ => do
    let auth ← first.asMap
    let authType ← (index auth "type").asString
    if authType = "S3BucketAuthentication" then do
      let contentType ← (d.Get "content_type").asString
      if contentType = "AwsInventory" then
        some (authSettings,
          some ("[ERROR] Unsupported authType: " ++ authType ++ " for AwsInventory source"))
      else do
        let accessKey ← (index auth "access_key").asString
        let secretKey ← (index auth "secret_key").asString
        some ({ authSettings with
                Typ := "S3BucketAuthentication", AwsID := accessKey, AwsKey := secretKey }, none)
    else if authType = "AWSRoleBasedAuthentication" then do
      let roleArn ← (index auth "role_arn").asString
      some ({ authSettings with Typ := "AWSRoleBasedAuthentication", RoleARN := roleArn }, none)
    else
      some (authSettings, some ("[ERROR] Unknown authType: " ++ authType))

/-- Go `getPathSettings`. -/
def getPathSettings (d : ResourceData) : Option (PollingPath × Option String) := do
  let pathSettings : PollingPath := {}
  let paths ← (d.Get "path").asList
  match paths with
  | [] => some (pathSettings, none)
  | first :: _ => do
    let path ← first.asMap
    let pathType ← (index path "type").asString
    if pathType = "S3BucketPathExpression" then do
      let bucketName ← (index path "bucket_name").asString
      let pathExpression ← (index path "path_expression").asString
      some ({ pathSettings with
              Typ := "S3BucketPathExpression", BucketName := bucketName,
              PathExpression := pathExpression }, none)
    else if pathType = "CloudWatchPath" ∨ pathType = "AwsInventoryPath" then do
      let rawLimitToRegions ← (index path "limit_to_regions").asList
      let LimitToRegions ← toStrings rawLimitToRegions
      let rawLimitToNamespaces ← (index path "limit_to_namespaces").asList
      let LimitToNamespaces ← toStrings rawLimitToNamespaces
      let pathSettings := { pathSettings with
        Typ := pathType, LimitToRegions := LimitToRegions,
        LimitToNamespaces := LimitToNamespaces }
      if pathType = "CloudWatchPath" then do
        let tagFilters ← getTagFilters d
        some ({ pathSettings with TagFilters := tagFilters }, none)
      else
        some (pathSettings, none)
    else
      some (pathSettings, some ("[ERROR] Unknown resourceType in path: " ++ pathType))

/-- Go `resourceToPollingSource`. -/
def resourceToPollingSource (h : Host) (d : ResourceData) :
    Option (PollingSource × Option String) := do
  let source ← h.resourceToSource d
  let source := { source with Typ := "Polling" }
  let paused ← (d.Get "paused").asBool
  let scanInterval ← (d.Get "scan_interval").asInt
  let contentType ← (d.Get "content_type").asString
  let url ← (d.Get "url").asString
  let pollingSource : PollingSource :=
    { Source := source, Paused := paused, ScanInterval := scanInterval,
      ContentType := contentType, URL := url }
  let (authSettings, errAuthSettings) ← getAuthentication d
  match errAuthSettings with
  | some e => some (pollingSource, some e)
  | none =>
    let (pathSettings, errPathSettings) ← getPathSettings d
    match errPathSettings with
    | some e => some (pollingSource, some e)
    | none => do
      let serviceType ← (d.Get "content_type").asString
      let pollingResource : PollingResource :=
        { ServiceType := serviceType, Authentication := authSettings, Path := pathSettings }
      some ({ pollingSource with
              ThirdPartyRef :=
                { Resources := pollingSource.ThirdPartyRef.Resources ++ [pollingResource] } },
            none)

/-! ## Polling source: callbacks -/

/-- Go `resourceSumologicPollingSourceRead`. -/
def resourceSumologicPollingSourceRead (h : Host) (c : Client) (d : ResourceData)
    (t : List Call) : Option Outcome :=
  let id := (Atoi d.Id).1
  match (d.Get "collector_id").asInt with
  | none => none
  | some collectorID =>
    let calls := t ++ [Call.getPollingSource collectorID id]
    match c.GetPollingSource t collectorID id with
    | (_, some e) => some ⟨d, calls, some e⟩
    | (none, none) => some ⟨d.SetId "", calls, none⟩
    | (some source, none) =>
      let pollingResources := source.ThirdPartyRef.Resources
      let path := getThirdPartyPathAttributes pollingResources
      match d.Set h.reject "path" (Value.list (path.map Value.map)) with
      | (d1, some e) => some ⟨d1, calls, some e⟩
      | (d1, none) =>
        match h.resourceSumologicSourceRead d1 source.Source with
        | none => none
        | some (d2, some e) => some ⟨d2, calls, some e⟩
        | some (d2, none) =>
          let d3 := (d2.Set h.reject "content_type" (Value.str source.ContentType)).1
          let d4 := (d3.Set h.reject "scan_interval" (Value.int source.ScanInterval)).1
          let d5 := (d4.Set h.reject "paused" (Value.bool source.Paused)).1
          let d6 := (d5.Set h.reject "url" (Value.str source.URL)).1
          some ⟨d6, calls, none⟩

/-- Go `resourceSumologicPollingSourceCreate`. -/
def resourceSumologicPollingSourceCreate (h : Host) (c : Client) (d : ResourceData)
    (t : List Call) : Option Outcome :=
  if d.Id = "" then
    match resourceToPollingSource h d with
    | none => none
    | some (_, some e) => some ⟨d, t, some e⟩
    | some (source, none) =>
      match (d.Get "collector_id").asInt with
      | none => none
      | some collectorID =>
        let calls := t ++ [Call.createPollingSource source collectorID]
        match c.CreatePollingSource t source collectorID with
        | (_, some e) => some ⟨d, calls, some e⟩
        | (sourceID, none) =>
          let id := Itoa sourceID
          resourceSumologicPollingSourceRead h c (d.SetId id) calls
  else
    resourceSumologicPollingSourceRead h c d t

/-- Go `resourceSumologicPollingSourceUpdate`. -/
def resourceSumologicPollingSourceUpdate (h : Host) (c : Client) (d : ResourceData)
    (t : List Call) : Option Outcome :=
  match resourceToPollingSource h d with
  | none => none
  | some (_, some e) => some ⟨d, t, some e⟩
  | some (source, none) =>
    match (d.Get "collector_id").asInt with
    | none => none
    | some collectorID =>
      let calls := t ++ [Call.updatePollingSource source collectorID]
      match c.UpdatePollingSource t source collectorID with
      | some e => some ⟨d, calls, some e⟩
      | none => resourceSumologicPollingSourceRead h c d calls

/-! ## Ingest budget: translation and callbacks -/

/-- Go `resourceToIngestBudgetV2`. -/
def resourceToIngestBudgetV2 (d : ResourceData) : Option IngestBudgetV2 := do
  let scope ← (d.Get "scope").asString
  let name ← (d.Get "name").asString
  let resetTime ← (d.Get "reset_time").asString
  let timezone ← (d.Get "timezone").asString
  let action ← (d.Get "action").asString
  let description ← (d.Get "description").asString
  let auditThreshold ← (d.Get "audit_threshold").asInt
  let capacityBytes ← (d.Get "capacity_bytes").asInt
  some { Scope := scope, Name := name, ResetTime := resetTime, Timezone := timezone,
         ID := d.Id, Action := action, Description := description,
         AuditThreshold := auditThreshold, CapacityBytes := capacityBytes }

/-- The attribute writes that end `resourceSumologicIngestBudgetV2Read`: eight
`d.Set` calls whose error results are dropped. -/
def writeIngestBudgetV2 (h : Host) (d : ResourceData) (b : IngestBudgetV2) : ResourceData :=
  let d := (d.Set h.reject "name" (Value.str b.Name)).1
  let d := (d.Set h.reject "scope" (Value.str b.Scope)).1
  let d := (d.Set h.reject "timezone" (Value.str b.Timezone)).1
  let d := (d.Set h.reject "reset_time" (Value.str b.ResetTime)).1
  let d := (d.Set h.reject "audit_threshold" (Value.int b.AuditThreshold)).1
  let d := (d.Set h.reject "description" (Value.str b.Description)).1
  let d := (d.Set h.reject "action" (Value.str b.Action)).1
  (d.Set h.reject "capacity_bytes" (Value.int b.CapacityBytes)).1

/-- Go `resourceSumologicIngestBudgetV2Read`. -/
def resourceSumologicIngestBudgetV2Read (h : Host) (c : Client) (d : ResourceData)
    (t : List Call) : Option Outcome :=
  let id := d.Id
  let calls := t ++ [Call.getIngestBudgetV2 id]
  match c.GetIngestBudgetV2 t id with
  | (_, some e) => some ⟨d, calls, some e⟩
  | (none, none) => some ⟨d.SetId "", calls, none⟩
  | (some ingestBudgetV2, none) => some ⟨writeIngestBudgetV2 h d ingestBudgetV2, calls, none⟩

/-- Go `resourceSumologicIngestBudgetV2Create`. -/
def resourceSumologicIngestBudgetV2Create (h : Host) (c : Client) (d : ResourceData)
    (t : List Call) : Option Outcome :=
  if d.Id = "" then
    match resourceToIngestBudgetV2 d with
    | none => none
    | some ingestBudgetV2 =>
      let calls := t ++ [Call.createIngestBudgetV2 ingestBudgetV2]
      match c.CreateIngestBudgetV2 t ingestBudgetV2 with
      | (_, some e) => some ⟨d, calls, some e⟩
      | (id, none) => resourceSumologicIngestBudgetV2Read h c (d.SetId id) calls
  else
    resourceSumologicIngestBudgetV2Read h c d t

/-- Go `resourceSumologicIngestBudgetV2Delete`. -/
def resourceSumologicIngestBudgetV2Delete (_h : Host) (c : Client) (d : ResourceData)
    (t : List Call) : Option Outcome :=
  some ⟨d, t ++ [Call.deleteIngestBudgetV2 d.Id], c.DeleteIngestBudgetV2 t d.Id⟩

/-- Go `resourceSumologicIngestBudgetV2Update`. -/
def resourceSumologicIngestBudgetV2Update (h : Host) (c : Client) (d : ResourceData)
    (t : List Call) : Option Outcome :=
  match resourceToIngestBudgetV2 d with
  | none => none
  | some ingestBudgetV2 =>
    let calls := t ++ [Call.updateIngestBudgetV2 ingestBudgetV2]
    match c.UpdateIngestBudgetV2 t ingestBudgetV2 with
    | some e => some ⟨d, calls, some e⟩
    | none => resourceSumologicIngestBudgetV2Read h c d calls

/-! ## Well-formed configuration blocks -/

/-- A `tag_filters` entry as the host hands it to the handler: a map holding a
string `type`, a string `namespace` and a list of strings `tags`. -/
def tagFilterBlock (f : TagFilter) : Value :=
  Value.map [("type", Value.str f.Typ), ("namespace", Value.str f.Namespace),
             ("tags", ofStrings f.Tags)]

/-- A `path` block as the host hands it to the handler, holding all six fields
of the schema. -/
def pathBlock (ty bucketName pathExpression : String) (regions namespaces : List String)
    (tagFilters : List TagFilter) : List (String × Value) :=
  [("type", Value.str ty),
   ("bucket_name", Value.str bucketName),
   ("path_expression", Value.str pathExpression),
   ("limit_to_regions", ofStrings regions),
   ("limit_to_namespaces", ofStrings namespaces),
   ("tag_filters", Value.list (tagFilters.map tagFilterBlock))]

/-- The fields a path type does not read are left empty. -/
def ownFieldsOnly (ty bucketName pathExpression : String) (regions namespaces : List String)
    (tagFilters : List TagFilter) : Prop :=
  (ty = "S3BucketPathExpression" ∧ regions = [] ∧ namespaces = [] ∧ tagFilters = []) ∨
  (ty = "CloudWatchPath" ∧ bucketName = "" ∧ pathExpression = "") ∨
  (ty = "AwsInventoryPath" ∧ bucketName = "" ∧ pathExpression = "" ∧ tagFilters = [])


/-! ## Example resources -/

/-- A host that accepts every write, whose generic source helpers succeed and
leave the resource data alone. -/
def exampleHost : Host :=
  ⟨fun _ _ => none, fun _ => some {}, fun d _ => some (d, none)⟩

/-- Two tag filter entries. -/
def exampleTagFilters : List TagFilter :=
  [⟨"TagFilters", "AWS/EC2", ["env=prod", "team=a"]⟩, ⟨"TagFilters", "AWS/RDS", []⟩]

/-- A resource holding nothing but one path block. -/
def examplePathResource (block : List (String × Value)) : ResourceData :=
  ⟨"", [("path", Value.list [Value.map block])]⟩

/-- A polling source resource with the given identifier, content type and
authentication type; the authentication block supplies both keys and a role. -/
def examplePollingResource (id contentType authType : String) : ResourceData :=
  ⟨id, [("collector_id", Value.int 42), ("content_type", Value.str contentType),
        ("paused", Value.bool false), ("scan_interval", Value.int 300000),
        ("url", Value.str ""),
        ("authentication", Value.list [Value.map
          [("type", Value.str authType), ("access_key", Value.str "AKIA"),
           ("secret_key", Value.str "s3cr3t"),
           ("role_arn", Value.str "arn:aws:iam::1:role/r")]]),
        ("path", Value.list [Value.map
          (pathBlock "S3BucketPathExpression" "logs" "*.log" [] [] [])])]⟩

/-- An ingest budget resource with the given identifier. -/
def exampleBudgetResource (id : String) : ResourceData :=
  ⟨id, [("name", Value.str "dev"), ("scope", Value.str "_sourceCategory=dev/*"),
        ("timezone", Value.str "Etc/UTC"), ("reset_time", Value.str "00:00"),
        ("audit_threshold", Value.int 85), ("description", Value.str ""),
        ("action", Value.str "keepCollecting"), ("capacity_bytes", Value.int 30000000000)]⟩

/-- The record `resourceToIngestBudgetV2` builds from `exampleBudgetResource id`. -/
def exampleBudget (id : String) : IngestBudgetV2 :=
  { Scope := "_sourceCategory=dev/*", Name := "dev", ResetTime := "00:00",
    Timezone := "Etc/UTC", ID := id, Action := "keepCollecting", Description := "",
    AuditThreshold := 85, CapacityBytes := 30000000000 }

/-- A client on which every mutation succeeds, a create returns the identifier
"b-1" (source 101), and every get fails with a server error. -/
def getFailsClient : Client :=
  { CreateIngestBudgetV2 := fun _ _ => ("b-1", none)
    GetIngestBudgetV2 := fun _ _ => (none, some "503 Service Unavailable")
    DeleteIngestBudgetV2 := fun _ _ => none
    UpdateIngestBudgetV2 := fun _ _ => none
    CreatePollingSource := fun _ _ _ => (101, none)
    UpdatePollingSource := fun _ _ _ => none
    GetPollingSource := fun _ _ _ => (none, some "503 Service Unavailable") }

/-- A client on which every mutation succeeds, a create returns the identifier
"b-1" (source 101), and every get finds nothing. -/
def goneClient : Client :=
  { CreateIngestBudgetV2 := fun _ _ => ("b-1", none)
    GetIngestBudgetV2 := fun _ _ => (none, none)
    DeleteIngestBudgetV2 := fun _ _ => none
    UpdateIngestBudgetV2 := fun _ _ => none
    CreatePollingSource := fun _ _ _ => (101, none)
    UpdatePollingSource := fun _ _ _ => none
    GetPollingSource := fun _ _ _ => (none, none) }

/-- The record `resourceToPollingSource exampleHost` builds from
`examplePollingResource id "AwsS3Bucket" "S3BucketAuthentication"`. -/
def examplePollingSource : PollingSource :=
  { Source := { Typ := "Polling" }, Paused := false, ScanInterval := 300000,
    ContentType := "AwsS3Bucket", URL := "",
    ThirdPartyRef := { Resources :=
      [{ ServiceType := "AwsS3Bucket",
         Authentication := { Typ := "S3BucketAuthentication", AwsID := "AKIA",
                             AwsKey := "s3cr3t" },
         Path := { Typ := "S3BucketPathExpression", BucketName := "logs",
                   PathExpression := "*.log" } }] } }

/-- A host that accepts every write and whose generic source read fails after
leaving the resource data alone. -/
def failingReadHost : Host :=
  ⟨fun _ _ => none, fun _ => some {}, fun d _ => some (d, some "source read failed")⟩

/-- A client on which every mutation succeeds and every get finds a polling
source without third-party resources. -/
def foundClient : Client :=
  { CreateIngestBudgetV2 := fun _ _ => ("b-1", none)
    GetIngestBudgetV2 := fun _ _ => (none, none)
    DeleteIngestBudgetV2 := fun _ _ => none
    UpdateIngestBudgetV2 := fun _ _ => none
    CreatePollingSource := fun _ _ _ => (101, none)
    UpdatePollingSource := fun _ _ _ => none
    GetPollingSource := fun _ _ _ => (some {}, none) }

/-- A CloudWatch path block whose `tag_filters` list holds one well-formed entry
followed by one empty entry: the configuration `tag_filters {}` sets none of the
three optional fields, and the host hands such an entry out as the nil
interface. -/
def emptyTagFilterBlock : List (String × Value) :=
  [("type", Value.str "CloudWatchPath"),
   ("bucket_name", Value.str ""),
   ("path_expression", Value.str ""),
   ("limit_to_regions", ofStrings ["us-east-1"]),
   ("limit_to_namespaces", ofStrings ["AWS/EC2"]),
   ("tag_filters", Value.list
     [tagFilterBlock ⟨"TagFilters", "AWS/EC2", ["env=prod"]⟩, Value.null])]

/-- An ingest budget resource that holds an identifier and no attribute yet. -/
def blankBudgetResource (id : String) : ResourceData :=
  ⟨id, []⟩

/-! ## Vocabulary of the callback theorems -/

/-- The eight attribute names of the ingest budget schema. -/
def ingestBudgetKeys : List String :=
  ["name", "scope", "timezone", "reset_time", "audit_threshold", "description", "action",
   "capacity_bytes"]

/-- The outcome is the one of a failed generic source read: the returned error
and resource data are those `resourceSumologicSourceRead` gave back. -/
def sourceReadFailed (h : Host) (o : Outcome) : Prop :=
  ∃ src d1 d2 e, h.resourceSumologicSourceRead d1 src = some (d2, some e) ∧
    o.d = d2 ∧ o.err = some e

/-! ## Lemmas: identifier conversion -/

theorem digitVal_digitChar (k : Nat) (hk : k < 10) : digitVal (digitChar k) = some k := by
  interval_cases k <;> rfl

theorem digitChar_ne_sign (k : Nat) (hk : k < 10) :
    digitChar k ≠ '-' ∧ digitChar k ≠ '+' := by
  interval_cases k <;> decide

theorem parseLoop_snoc (cs : List Char) (c : Char) (acc : Nat) :
    parseLoop acc (cs ++ [c]) =
      (parseLoop acc cs).bind fun a => (digitVal c).map fun v => a * 10 + v := by
  induction cs generalizing acc with
  | nil =>
    cases hc : digitVal c <;> simp [parseLoop, hc]
  | cons x xs ih =>
    cases hx : digitVal x with
    | none => simp [parseLoop, hx]
    | some v => simp [parseLoop, hx, ih]

theorem parseLoop_natDigits (n : Nat) : parseLoop 0 (natDigits n) = some n := by
  induction n using Nat.strong_induction_on with
  | _ n ih =>
    rw [natDigits]
    split
    · next hlt => simp [parseLoop, digitVal_digitChar n hlt]
    · next hge =>
      have hdiv : n / 10 < n := by omega
      have hmod : n % 10 < 10 := by omega
      rw [parseLoop_snoc, ih _ hdiv, digitVal_digitChar _ hmod]
      simp
      omega

theorem natDigits_head (n : Nat) :
    ∃ k cs, k < 10 ∧ natDigits n = digitChar k :: cs := by
  induction n using Nat.strong_induction_on with
  | _ n ih =>
    rw [natDigits]
    split
    · next hlt => exact ⟨n, [], hlt, rfl⟩
    · next hge =>
      obtain ⟨k, cs, hk, hcs⟩ := ih (n / 10) (by omega)
      exact ⟨k, cs ++ [digitChar (n % 10)], hk, by simp [hcs]⟩

theorem parseDigits_natDigits (n : Nat) : parseDigits (natDigits n) = some n := by
  obtain ⟨k, cs, _, hcs⟩ := natDigits_head n
  have hne : natDigits n ≠ [] := by simp [hcs]
  simp [parseDigits, hne, parseLoop_natDigits]

/-- Parsing a formatted 64-bit integer gives the integer back, without error. -/
theorem Atoi_Itoa (n : Int) (hlo : -(2 ^ 63) ≤ n) (hhi : n < 2 ^ 63) :
    Atoi (Itoa n) = (n, none) := by
  by_cases hneg : n < 0
  · have hle : ¬ (9223372036854775808 < n.natAbs) := by omega
    have hval : -|n| = n := by rw [abs_of_neg hneg]; ring
    simp [Atoi, Itoa, hneg, parseDigits_natDigits, hle, hval]
  · obtain ⟨k, cs, hk, hcs⟩ := natDigits_head n.toNat
    obtain ⟨hminus, hplus⟩ := digitChar_ne_sign k hk
    have hparse := parseDigits_natDigits n.toNat
    rw [hcs] at hparse
    have hlt : n.toNat < 9223372036854775808 := by omega
    have hval : ((n.toNat : Nat) : Int) = n := by omega
    simp [Atoi, Itoa, hneg, hcs, hminus, hplus, hparse, hlt, hval]

/-! ## Lemmas: expand and flatten -/

theorem toStrings_ofStrings (ss : List String) :
    toStrings (ss.map Value.str) = some ss := by
  induction ss with
  | nil => rfl
  | cons s ss ih => simp [toStrings, Value.asString, ih]

theorem tagFilterLoop_blocks (tfs : List TagFilter) :
    tagFilterLoop (tfs.map tagFilterBlock) = some tfs := by
  induction tfs with
  | nil => rfl
  | cons f fs ih =>
    simp [tagFilterLoop, tagFilterBlock, Value.asMap, index, List.lookup, Value.asString,
      Value.asList, ofStrings, toStrings_ofStrings, ih]

theorem flattenTagFilters_blocks (tfs : List TagFilter) :
    (flattenTagFilters tfs).map Value.map = tfs.map tagFilterBlock := by
  simp [flattenTagFilters, tagFilterBlock]

/-- Tag filters of a resource whose first path block holds well-formed entries. -/
theorem getTagFilters_blocks (d : ResourceData) (m : List (String × Value)) (rest : List Value)
    (tfs : List TagFilter)
    (hd : d.Get "path" = Value.list (Value.map m :: rest))
    (htf : index m "tag_filters" = Value.list (tfs.map tagFilterBlock)) :
    getTagFilters d = some tfs := by
  simp [getTagFilters, hd, htf, Value.asList, Value.asMap, tagFilterLoop_blocks]

/-- Expansion of a CloudWatch path block. -/
theorem getPathSettings_cloudWatch (d : ResourceData) (m : List (String × Value))
    (rest : List Value) (regions namespaces : List String) (tfs : List TagFilter)
    (hd : d.Get "path" = Value.list (Value.map m :: rest))
    (hty : index m "type" = Value.str "CloudWatchPath")
    (hr : index m "limit_to_regions" = ofStrings regions)
    (hn : index m "limit_to_namespaces" = ofStrings namespaces)
    (htf : index m "tag_filters" = Value.list (tfs.map tagFilterBlock)) :
    getPathSettings d =
      some ({ Typ := "CloudWatchPath", LimitToRegions := regions,
              LimitToNamespaces := namespaces, TagFilters := tfs }, none) := by
  have htags := getTagFilters_blocks d m rest tfs hd htf
  simp [getPathSettings, hd, hty, hr, hn, htags, Value.asList, Value.asMap, Value.asString,
    ofStrings, toStrings_ofStrings]

/-- Expansion of an inventory path block: `tag_filters` is not read. -/
theorem getPathSettings_inventory (d : ResourceData) (m : List (String × Value))
    (rest : List Value) (regions namespaces : List String)
    (hd : d.Get "path" = Value.list (Value.map m :: rest))
    (hty : index m "type" = Value.str "AwsInventoryPath")
    (hr : index m "limit_to_regions" = ofStrings regions)
    (hn : index m "limit_to_namespaces" = ofStrings namespaces) :
    getPathSettings d =
      some ({ Typ := "AwsInventoryPath", LimitToRegions := regions,
              LimitToNamespaces := namespaces, TagFilters := [] }, none) := by
  simp [getPathSettings, hd, hty, hr, hn, Value.asList, Value.asMap, Value.asString,
    ofStrings, toStrings_ofStrings]

/-- Expansion of a bucket path block: only the bucket and the expression are read. -/
theorem getPathSettings_bucket (d : ResourceData) (m : List (String × Value))
    (rest : List Value) (bucketName pathExpression : String)
    (hd : d.Get "path" = Value.list (Value.map m :: rest))
    (hty : index m "type" = Value.str "S3BucketPathExpression")
    (hb : index m "bucket_name" = Value.str bucketName)
    (hp : index m "path_expression" = Value.str pathExpression) :
    getPathSettings d =
      some ({ Typ := "S3BucketPathExpression", BucketName := bucketName,
              PathExpression := pathExpression }, none) := by
  simp [getPathSettings, hd, hty, hb, hp, Value.asList, Value.asMap, Value.asString]

/-! ## Path round trip -/

/-- C1 (as stated, refuted): a bucket path block that also supplies
`limit_to_regions` does not come back from expand-then-flatten: the expansion
keeps the bucket and the expression only, so the flattened map holds an empty
`limit_to_regions` where the block held `["us-east-1"]`. -/
theorem path_roundtrip_drops_unread_fields :
    getPathSettings
        ⟨"", [("path", Value.list [Value.map
          (pathBlock "S3BucketPathExpression" "logs" "*.log" ["us-east-1"] [] [])])]⟩ =
      some ({ Typ := "S3BucketPathExpression", BucketName := "logs",
              PathExpression := "*.log" }, none) ∧
    getThirdPartyPathAttributes
        [{ Path := { Typ := "S3BucketPathExpression", BucketName := "logs",
                     PathExpression := "*.log" } }] =
      [pathBlock "S3BucketPathExpression" "logs" "*.log" [] [] []] ∧
    [pathBlock "S3BucketPathExpression" "logs" "*.log" [] [] []] ≠
      [pathBlock "S3BucketPathExpression" "logs" "*.log" ["us-east-1"] [] []] := by
  refine ⟨?_, ?_, ?_⟩
  · exact getPathSettings_bucket _ _ [] "logs" "*.log" rfl rfl rfl rfl
  · rfl
  · simp [pathBlock, ofStrings]

/-- C1 (amended): for a path block of one of the three types that holds a string
bucket name and path expression, lists of strings for regions and namespaces and
tag filter entries that are each a map of a string type, a string namespace and
a list of strings tags, and whose fields not read for its type are empty,
expanding with `getPathSettings` and flattening the single polling resource with
`getThirdPartyPathAttributes` gives a list of one map, equal to the block entry
for entry; for the two types other than CloudWatch its `tag_filters` entry is
the empty list. -/
theorem path_roundtrip (d : ResourceData) (serviceType : String)
    (auth : PollingAuthentication) (ty bucketName pathExpression : String)
    (regions namespaces : List String) (tagFilters : List TagFilter)
    (hd : d.Get "path" =
      Value.list [Value.map (pathBlock ty bucketName pathExpression regions namespaces tagFilters)])
    (hown : ownFieldsOnly ty bucketName pathExpression regions namespaces tagFilters) :
    ∃ p m, getPathSettings d = some (p, none) ∧
      getThirdPartyPathAttributes
        [{ ServiceType := serviceType, Authentication := auth, Path := p }] = [m] ∧
      m = pathBlock ty bucketName pathExpression regions namespaces tagFilters ∧
      (ty ≠ "CloudWatchPath" → index m "tag_filters" = Value.list []) := by
  rcases hown with ⟨hty, hr, hn, htf⟩ | ⟨hty, hb, hp⟩ | ⟨hty, hb, hp, htf⟩
  · subst hty hr hn htf
    refine ⟨_, _, getPathSettings_bucket d _ [] bucketName pathExpression hd rfl rfl rfl,
      rfl, ?_, fun _ => rfl⟩
    simp [pathBlock, ofStrings, flattenTagFilters]
  · subst hty hb hp
    refine ⟨_, _, getPathSettings_cloudWatch d _ [] regions namespaces tagFilters hd
      rfl rfl rfl rfl, rfl, ?_, fun hne => absurd rfl hne⟩
    simp [pathBlock, flattenTagFilters_blocks]
  · subst hty hb hp htf
    refine ⟨_, _, getPathSettings_inventory d _ [] regions namespaces hd rfl rfl rfl,
      rfl, ?_, fun _ => rfl⟩
    simp [pathBlock, ofStrings, flattenTagFilters]

/-- C1 (amended), at the example of the specification: type
"S3BucketPathExpression", bucket "logs", expression "*.log", nothing else. -/
theorem path_roundtrip_witness :
    ownFieldsOnly "S3BucketPathExpression" "logs" "*.log" [] [] [] ∧
    ∃ p m, getPathSettings
        ⟨"7", [("path", Value.list [Value.map
          (pathBlock "S3BucketPathExpression" "logs" "*.log" [] [] [])])]⟩ = some (p, none) ∧
      getThirdPartyPathAttributes
        [{ ServiceType := "AwsS3Bucket", Authentication := {}, Path := p }] = [m] ∧
      m = pathBlock "S3BucketPathExpression" "logs" "*.log" [] [] [] ∧
      ("S3BucketPathExpression" ≠ "CloudWatchPath" → index m "tag_filters" = Value.list []) :=
  ⟨Or.inl ⟨rfl, rfl, rfl, rfl⟩,
   path_roundtrip _ "AwsS3Bucket" {} "S3BucketPathExpression" "logs" "*.log" [] [] [] rfl
     (Or.inl ⟨rfl, rfl, rfl, rfl⟩)⟩

/-! ## Authentication and path expansion -/

theorem asString_eq_some (v : Value) (s : String) :
    v.asString = some s ↔ v = Value.str s := by
  cases v <;> simp [Value.asString]

/-- Expansion of a key-pair authentication block for a content type other than
the inventory one. -/
theorem getAuthentication_keys (d : ResourceData) (m : List (String × Value))
    (rest : List Value) (ct accessKey secretKey : String)
    (hd : d.Get "authentication" = Value.list (Value.map m :: rest))
    (hty : index m "type" = Value.str "S3BucketAuthentication")
    (hct : d.Get "content_type" = Value.str ct) (hne : ct ≠ "AwsInventory")
    (hak : index m "access_key" = Value.str accessKey)
    (hsk : index m "secret_key" = Value.str secretKey) :
    getAuthentication d =
      some ({ Typ := "S3BucketAuthentication", AwsID := accessKey, AwsKey := secretKey,
              RoleARN := "" }, none) := by
  simp [getAuthentication, hd, hty, hct, hne, hak, hsk, Value.asList, Value.asMap,
    Value.asString]

/-- Expansion of a key-pair authentication block for the inventory content type. -/
theorem getAuthentication_inventory (d : ResourceData) (m : List (String × Value))
    (rest : List Value)
    (hd : d.Get "authentication" = Value.list (Value.map m :: rest))
    (hty : index m "type" = Value.str "S3BucketAuthentication")
    (hct : d.Get "content_type" = Value.str "AwsInventory") :
    getAuthentication d =
      some ({}, some "[ERROR] Unsupported authType: S3BucketAuthentication for AwsInventory source") := by
  simp [getAuthentication, hd, hty, hct, Value.asList, Value.asMap, Value.asString]

/-- Expansion of a role authentication block. -/
theorem getAuthentication_role (d : ResourceData) (m : List (String × Value))
    (rest : List Value) (roleArn : String)
    (hd : d.Get "authentication" = Value.list (Value.map m :: rest))
    (hty : index m "type" = Value.str "AWSRoleBasedAuthentication")
    (harn : index m "role_arn" = Value.str roleArn) :
    getAuthentication d =
      some ({ Typ := "AWSRoleBasedAuthentication", AwsID := "", AwsKey := "",
              RoleARN := roleArn }, none) := by
  simp [getAuthentication, hd, hty, harn, Value.asList, Value.asMap, Value.asString]

/-- C2: a key-pair authentication block together with content type "AwsInventory"
makes `getAuthentication` return an error, whatever the block holds besides its
type, and `resourceToPollingSource` returns the same error (together with the
record built so far) once the scalar attributes it reads first are of their
schema types and the generic helper has returned. -/
theorem s3_authentication_rejected_for_inventory (h : Host) (d : ResourceData)
    (m : List (String × Value)) (rest : List Value) (src : Source) (paused : Bool)
    (scanInterval : Int) (url : String)
    (hd : d.Get "authentication" = Value.list (Value.map m :: rest))
    (hty : index m "type" = Value.str "S3BucketAuthentication")
    (hct : d.Get "content_type" = Value.str "AwsInventory")
    (hsrc : h.resourceToSource d = some src)
    (hpaused : d.Get "paused" = Value.bool paused)
    (hscan : d.Get "scan_interval" = Value.int scanInterval)
    (hurl : d.Get "url" = Value.str url) :
    getAuthentication d =
      some ({}, some "[ERROR] Unsupported authType: S3BucketAuthentication for AwsInventory source") ∧
    resourceToPollingSource h d =
      some ({ Source := { src with Typ := "Polling" }, Paused := paused,
              ScanInterval := scanInterval, ContentType := "AwsInventory", URL := url },
            some "[ERROR] Unsupported authType: S3BucketAuthentication for AwsInventory source") := by
  have hauth := getAuthentication_inventory d m rest hd hty hct
  refine ⟨hauth, ?_⟩
  simp [resourceToPollingSource, hsrc, hpaused, hscan, hurl, hct, hauth, Value.asBool,
    Value.asInt, Value.asString]

/-- C2 at a concrete resource: access key, secret key and role all supplied. -/
theorem s3_authentication_rejected_for_inventory_witness :
    getAuthentication (examplePollingResource "" "AwsInventory" "S3BucketAuthentication") =
      some ({}, some "[ERROR] Unsupported authType: S3BucketAuthentication for AwsInventory source") ∧
    resourceToPollingSource exampleHost
        (examplePollingResource "" "AwsInventory" "S3BucketAuthentication") =
      some ({ Source := { Typ := "Polling" }, Paused := false, ScanInterval := 300000,
              ContentType := "AwsInventory", URL := "" },
            some "[ERROR] Unsupported authType: S3BucketAuthentication for AwsInventory source") :=
  s3_authentication_rejected_for_inventory exampleHost
    (examplePollingResource "" "AwsInventory" "S3BucketAuthentication")
    [("type", Value.str "S3BucketAuthentication"), ("access_key", Value.str "AKIA"),
     ("secret_key", Value.str "s3cr3t"), ("role_arn", Value.str "arn:aws:iam::1:role/r")]
    [] {} false 300000 "" rfl rfl rfl rfl rfl rfl rfl

/-- C3: an authentication block whose type is neither of the two known ones makes
`getAuthentication` return (not panic) with the error "[ERROR] Unknown authType: "
followed by the type, and a path block whose type is none of the three known
ones makes `getPathSettings` return with the error "[ERROR] Unknown resourceType
in path: " followed by the type; no other field of the block is looked at. -/
theorem unknown_discriminator_is_error (d : ResourceData) (m : List (String × Value))
    (rest : List Value) (ty : String) (hty : index m "type" = Value.str ty) :
    (d.Get "authentication" = Value.list (Value.map m :: rest) →
      ty ≠ "S3BucketAuthentication" → ty ≠ "AWSRoleBasedAuthentication" →
      getAuthentication d = some ({}, some ("[ERROR] Unknown authType: " ++ ty))) ∧
    (d.Get "path" = Value.list (Value.map m :: rest) →
      ty ≠ "S3BucketPathExpression" → ty ≠ "CloudWatchPath" → ty ≠ "AwsInventoryPath" →
      getPathSettings d = some ({}, some ("[ERROR] Unknown resourceType in path: " ++ ty))) := by
  constructor
  · intro hd h1 h2
    simp [getAuthentication, hd, hty, h1, h2, Value.asList, Value.asMap, Value.asString]
  · intro hd h1 h2 h3
    simp [getPathSettings, hd, hty, h1, h2, h3, Value.asList, Value.asMap, Value.asString]

/-- C3 at a block of type "Bogus" that holds nothing but its type. -/
theorem unknown_discriminator_is_error_witness :
    getAuthentication
        ⟨"", [("authentication", Value.list [Value.map [("type", Value.str "Bogus")]]),
              ("path", Value.list [Value.map [("type", Value.str "Bogus")]])]⟩ =
      some ({}, some ("[ERROR] Unknown authType: " ++ "Bogus")) ∧
    getPathSettings
        ⟨"", [("authentication", Value.list [Value.map [("type", Value.str "Bogus")]]),
              ("path", Value.list [Value.map [("type", Value.str "Bogus")]])]⟩ =
      some ({}, some ("[ERROR] Unknown resourceType in path: " ++ "Bogus")) :=
  ⟨(unknown_discriminator_is_error _ [("type", Value.str "Bogus")] [] "Bogus" rfl).1 rfl
      (by decide) (by decide),
   (unknown_discriminator_is_error _ [("type", Value.str "Bogus")] [] "Bogus" rfl).2 rfl
      (by decide) (by decide) (by decide)⟩

/-- Expansion and tag filters on blocks whose tag filter entries are maps of a
string type, a string namespace and a list of strings tags: for type
"CloudWatchPath" the expansion carries the supplied tag filters, entry by entry
and in order; for the types "S3BucketPathExpression" and "AwsInventoryPath" the
expansion has no tag filters, whatever the block holds under `tag_filters`. -/
theorem tag_filters_only_for_cloudWatch (d : ResourceData) (m : List (String × Value))
    (rest : List Value) (hd : d.Get "path" = Value.list (Value.map m :: rest)) :
    (∀ regions namespaces tfs,
      index m "type" = Value.str "CloudWatchPath" →
      index m "limit_to_regions" = ofStrings regions →
      index m "limit_to_namespaces" = ofStrings namespaces →
      index m "tag_filters" = Value.list (tfs.map tagFilterBlock) →
      ∃ p, getPathSettings d = some (p, none) ∧ p.TagFilters = tfs ∧
        p.Typ = "CloudWatchPath" ∧ p.LimitToRegions = regions ∧
        p.LimitToNamespaces = namespaces) ∧
    (∀ bucketName pathExpression,
      index m "type" = Value.str "S3BucketPathExpression" →
      index m "bucket_name" = Value.str bucketName →
      index m "path_expression" = Value.str pathExpression →
      ∃ p, getPathSettings d = some (p, none) ∧ p.TagFilters = [] ∧
        p.Typ = "S3BucketPathExpression" ∧ p.BucketName = bucketName ∧
        p.PathExpression = pathExpression) ∧
    (∀ regions namespaces,
      index m "type" = Value.str "AwsInventoryPath" →
      index m "limit_to_regions" = ofStrings regions →
      index m "limit_to_namespaces" = ofStrings namespaces →
      ∃ p, getPathSettings d = some (p, none) ∧ p.TagFilters = [] ∧
        p.Typ = "AwsInventoryPath" ∧ p.LimitToRegions = regions ∧
        p.LimitToNamespaces = namespaces) := by
  refine ⟨?_, ?_, ?_⟩
  · intro regions namespaces tfs hty hr hn htf
    exact ⟨_, getPathSettings_cloudWatch d m rest regions namespaces tfs hd hty hr hn htf,
      rfl, rfl, rfl, rfl⟩
  · intro bucketName pathExpression hty hb hp
    exact ⟨_, getPathSettings_bucket d m rest bucketName pathExpression hd hty hb hp,
      rfl, rfl, rfl, rfl⟩
  · intro regions namespaces hty hr hn
    exact ⟨_, getPathSettings_inventory d m rest regions namespaces hd hty hr hn,
      rfl, rfl, rfl, rfl⟩

/-- The three expansions at blocks that all supply the same two tag filters. -/
theorem tag_filters_only_for_cloudWatch_witness :
    (∃ p, getPathSettings (examplePathResource
          (pathBlock "CloudWatchPath" "" "" ["us-east-1"] ["AWS/EC2"] exampleTagFilters)) =
          some (p, none) ∧
        p.TagFilters = exampleTagFilters ∧
        p.Typ = "CloudWatchPath" ∧ p.LimitToRegions = ["us-east-1"] ∧
        p.LimitToNamespaces = ["AWS/EC2"]) ∧
    (∃ p, getPathSettings (examplePathResource
          (pathBlock "S3BucketPathExpression" "logs" "*.log" [] [] exampleTagFilters)) =
          some (p, none) ∧
        p.TagFilters = [] ∧ p.Typ = "S3BucketPathExpression" ∧ p.BucketName = "logs" ∧
        p.PathExpression = "*.log") ∧
    (∃ p, getPathSettings (examplePathResource
          (pathBlock "AwsInventoryPath" "" "" ["us-east-1"] ["AWS/EC2"] exampleTagFilters)) =
          some (p, none) ∧
        p.TagFilters = [] ∧ p.Typ = "AwsInventoryPath" ∧ p.LimitToRegions = ["us-east-1"] ∧
        p.LimitToNamespaces = ["AWS/EC2"]) :=
  ⟨(tag_filters_only_for_cloudWatch
      (examplePathResource
        (pathBlock "CloudWatchPath" "" "" ["us-east-1"] ["AWS/EC2"] exampleTagFilters))
      (pathBlock "CloudWatchPath" "" "" ["us-east-1"] ["AWS/EC2"] exampleTagFilters) [] rfl).1
      ["us-east-1"] ["AWS/EC2"] exampleTagFilters rfl rfl rfl rfl,
   (tag_filters_only_for_cloudWatch
      (examplePathResource
        (pathBlock "S3BucketPathExpression" "logs" "*.log" [] [] exampleTagFilters))
      (pathBlock "S3BucketPathExpression" "logs" "*.log" [] [] exampleTagFilters) [] rfl).2.1
      "logs" "*.log" rfl rfl rfl,
   (tag_filters_only_for_cloudWatch
      (examplePathResource
        (pathBlock "AwsInventoryPath" "" "" ["us-east-1"] ["AWS/EC2"] exampleTagFilters))
      (pathBlock "AwsInventoryPath" "" "" ["us-east-1"] ["AWS/EC2"] exampleTagFilters) [] rfl).2.2
      ["us-east-1"] ["AWS/EC2"] rfl rfl rfl⟩

/-- C4 (code defect): on a CloudWatch path block whose second `tag_filters`
entry is empty, and so handed out as the nil interface, the type assertion
`rawConfig.(map[string]interface{})` of `getTagFilters` fails: `getTagFilters`
and with it `getPathSettings` panic instead of returning two tag filters, the
second one with empty type, namespace and tags.  With the same entries under the
other two types the expansion returns, with no tag filters. -/
theorem empty_tag_filter_entry_panics :
    (examplePathResource emptyTagFilterBlock).Get "path" =
      Value.list [Value.map emptyTagFilterBlock] ∧
    index emptyTagFilterBlock "type" = Value.str "CloudWatchPath" ∧
    index emptyTagFilterBlock "tag_filters" =
      Value.list [tagFilterBlock ⟨"TagFilters", "AWS/EC2", ["env=prod"]⟩, Value.null] ∧
    tagFilterLoop [tagFilterBlock ⟨"TagFilters", "AWS/EC2", ["env=prod"]⟩] =
      some [⟨"TagFilters", "AWS/EC2", ["env=prod"]⟩] ∧
    tagFilterLoop [tagFilterBlock ⟨"TagFilters", "AWS/EC2", ["env=prod"]⟩, Value.null] = none ∧
    getTagFilters (examplePathResource emptyTagFilterBlock) = none ∧
    getPathSettings (examplePathResource emptyTagFilterBlock) = none ∧
    getPathSettings (examplePathResource
        (("type", Value.str "AwsInventoryPath") :: emptyTagFilterBlock.tail)) =
      some ({ Typ := "AwsInventoryPath", LimitToRegions := ["us-east-1"],
              LimitToNamespaces := ["AWS/EC2"], TagFilters := [] }, none) :=
  ⟨rfl, rfl, rfl, rfl, rfl, rfl, rfl, rfl⟩

/-- C5: on a resource whose first authentication block is a map, whenever
`getAuthentication` succeeds the result holds exactly one variant.  For type
"S3BucketAuthentication" it carries that type, the block's access key and secret
key and an empty role, whatever `role_arn` holds; for type
"AWSRoleBasedAuthentication" it carries that type, the block's role and empty
keys, whatever `access_key` and `secret_key` hold.  And it does succeed: in the
first case when the content type is a string other than "AwsInventory" and the
two keys are strings, in the second when the role is a string. -/
theorem authentication_one_variant (d : ResourceData) (m : List (String × Value))
    (rest : List Value) (hd : d.Get "authentication" = Value.list (Value.map m :: rest)) :
    (index m "type" = Value.str "S3BucketAuthentication" →
      (∀ a, getAuthentication d = some (a, none) →
        a.Typ = "S3BucketAuthentication" ∧ index m "access_key" = Value.str a.AwsID ∧
        index m "secret_key" = Value.str a.AwsKey ∧ a.RoleARN = "") ∧
      (∀ ct accessKey secretKey, d.Get "content_type" = Value.str ct → ct ≠ "AwsInventory" →
        index m "access_key" = Value.str accessKey →
        index m "secret_key" = Value.str secretKey →
        getAuthentication d =
          some ({ Typ := "S3BucketAuthentication", AwsID := accessKey, AwsKey := secretKey,
                  RoleARN := "" }, none))) ∧
    (index m "type" = Value.str "AWSRoleBasedAuthentication" →
      (∀ a, getAuthentication d = some (a, none) →
        a.Typ = "AWSRoleBasedAuthentication" ∧ index m "role_arn" = Value.str a.RoleARN ∧
        a.AwsID = "" ∧ a.AwsKey = "") ∧
      (∀ roleArn, index m "role_arn" = Value.str roleArn →
        getAuthentication d =
          some ({ Typ := "AWSRoleBasedAuthentication", AwsID := "", AwsKey := "",
                  RoleARN := roleArn }, none))) := by
  constructor
  · intro hty
    refine ⟨?_, fun ct ak sk hct hne hak hsk =>
      getAuthentication_keys d m rest ct ak sk hd hty hct hne hak hsk⟩
    intro a ha
    simp only [getAuthentication, hd, hty, Value.asList, Value.asMap, Value.asString,
      Option.bind_eq_bind, Option.some_bind, if_true] at ha
    obtain ⟨ct, hct, ha⟩ := Option.bind_eq_some.mp ha
    split at ha
    · simp at ha
    · obtain ⟨ak, hak, ha⟩ := Option.bind_eq_some.mp ha
      obtain ⟨sk, hsk, ha⟩ := Option.bind_eq_some.mp ha
      simp only [Option.some.injEq, Prod.mk.injEq, and_true] at ha
      subst ha
      exact ⟨rfl, (asString_eq_some _ _).mp hak, (asString_eq_some _ _).mp hsk, rfl⟩
  · intro hty
    refine ⟨?_, fun arn harn => getAuthentication_role d m rest arn hd hty harn⟩
    intro a ha
    simp only [getAuthentication, hd, hty, Value.asList, Value.asMap, Value.asString,
      Option.bind_eq_bind, Option.some_bind] at ha
    rw [if_pos trivial] at ha
    obtain ⟨arn, harn, ha⟩ := Option.bind_eq_some.mp ha
    simp only [Option.some.injEq, Prod.mk.injEq, and_true] at ha
    subst ha
    exact ⟨rfl, (asString_eq_some _ _).mp harn, rfl, rfl⟩


/-- C5 at a resource whose authentication block supplies both keys and a role. -/
theorem authentication_one_variant_witness :
    getAuthentication (examplePollingResource "" "AwsS3Bucket" "S3BucketAuthentication") =
      some ({ Typ := "S3BucketAuthentication", AwsID := "AKIA", AwsKey := "s3cr3t",
              RoleARN := "" }, none) ∧
    getAuthentication (examplePollingResource "" "AwsS3Bucket" "AWSRoleBasedAuthentication") =
      some ({ Typ := "AWSRoleBasedAuthentication", AwsID := "", AwsKey := "",
              RoleARN := "arn:aws:iam::1:role/r" }, none) :=
  ⟨((authentication_one_variant
      (examplePollingResource "" "AwsS3Bucket" "S3BucketAuthentication")
      [("type", Value.str "S3BucketAuthentication"), ("access_key", Value.str "AKIA"),
       ("secret_key", Value.str "s3cr3t"), ("role_arn", Value.str "arn:aws:iam::1:role/r")]
      [] rfl).1 rfl).2 "AwsS3Bucket" "AKIA" "s3cr3t" rfl (by decide) rfl rfl,
   ((authentication_one_variant
      (examplePollingResource "" "AwsS3Bucket" "AWSRoleBasedAuthentication")
      [("type", Value.str "AWSRoleBasedAuthentication"), ("access_key", Value.str "AKIA"),
       ("secret_key", Value.str "s3cr3t"), ("role_arn", Value.str "arn:aws:iam::1:role/r")]
      [] rfl).2 rfl).2 "arn:aws:iam::1:role/r" rfl⟩

/-! ## Lemmas: the attribute store -/

theorem index_store (key : String) (v : Value) (attrs : List (String × Value)) (k : String) :
    index (ResourceData.store key v attrs) k = if k = key then v else index attrs k := by
  induction attrs with
  | nil =>
    by_cases hk : k = key
    · simp [ResourceData.store, index, List.lookup, hk]
    · have hb : (k == key) = false := by simpa using hk
      simp [ResourceData.store, index, List.lookup, hk, hb]
  | cons e rest ih =>
    obtain ⟨k1, w⟩ := e
    by_cases h1 : k1 = key
    · by_cases hk : k = key
      · simp [ResourceData.store, index, List.lookup, h1, hk]
      · have hb : (k == key) = false := by simpa using hk
        simp [ResourceData.store, index, List.lookup, h1, hk, hb]
    · by_cases hk1 : k = k1
      · have hk : ¬ k = key := fun hkk => h1 (hk1 ▸ hkk)
        simp [ResourceData.store, index, List.lookup, h1, hk, hk1]
      · have hb : (k == k1) = false := by simpa using hk1
        simp only [index] at ih
        simp [ResourceData.store, index, List.lookup, h1, hk1, hb, ih]

/-- Reading after a write: the written value under the written key when the
write was accepted, the old value otherwise. -/
theorem Get_Set (rej : String → Value → Option String) (d : ResourceData) (key : String)
    (v : Value) (k : String) :
    (d.Set rej key v).1.Get k = if k = key ∧ rej key v = none then v else d.Get k := by
  cases hr : rej key v with
  | none => simp [ResourceData.Set, ResourceData.Get, hr, index_store]
  | some e => simp [ResourceData.Set, ResourceData.Get, hr]

theorem Id_Set (rej : String → Value → Option String) (d : ResourceData) (key : String)
    (v : Value) : (d.Set rej key v).1.Id = d.Id := by
  cases hr : rej key v <;> simp [ResourceData.Set, ResourceData.Id, hr]

/-- A rejected write leaves the resource data as it was. -/
theorem Set_rejected (rej : String → Value → Option String) (d : ResourceData) (key : String)
    (v : Value) (d1 : ResourceData) (e : String) (hset : d.Set rej key v = (d1, some e)) :
    d1 = d := by
  cases hr : rej key v with
  | none => simp [ResourceData.Set, hr] at hset
  | some e1 =>
    simp [ResourceData.Set, hr] at hset
    exact hset.1.symm

/-! ## Lemmas: the callbacks -/

/-- The ingest budget Read returns; with an error it leaves the resource data as
it was, and it makes one get call. -/
theorem ingest_read_returns (h : Host) (c : Client) (d : ResourceData) (t : List Call) :
    ∃ o, resourceSumologicIngestBudgetV2Read h c d t = some o ∧
      o.calls = t ++ [Call.getIngestBudgetV2 d.Id] ∧ (o.err ≠ none → o.d = d) := by
  unfold resourceSumologicIngestBudgetV2Read
  dsimp only
  rcases c.GetIngestBudgetV2 t d.Id with ⟨_ | b, _ | e⟩
  · exact ⟨_, rfl, rfl, fun hne => absurd rfl hne⟩
  · exact ⟨_, rfl, rfl, fun _ => rfl⟩
  · exact ⟨_, rfl, rfl, fun hne => absurd rfl hne⟩
  · exact ⟨_, rfl, rfl, fun _ => rfl⟩

/-- The polling source Read, when it returns, has made one get call, with the
collector and the parsed identifier; with an error it leaves the resource data
as it was unless the error is the one of the generic source read. -/
theorem polling_read_outcome (h : Host) (c : Client) (d : ResourceData) (t : List Call)
    (o : Outcome) (ho : resourceSumologicPollingSourceRead h c d t = some o) :
    (∃ cid, d.Get "collector_id" = Value.int cid ∧
      o.calls = t ++ [Call.getPollingSource cid (Atoi d.Id).1]) ∧
    (o.err ≠ none → o.d = d ∨
      ∃ src d1 d2 e, h.resourceSumologicSourceRead d1 src = some (d2, some e) ∧
        o.d = d2 ∧ o.err = some e) := by
  unfold resourceSumologicPollingSourceRead at ho
  cases hcid : d.Get "collector_id" <;> simp [hcid, Value.asInt] at ho
  rename_i cid
  rcases hget : c.GetPollingSource t cid (Atoi d.Id).1 with ⟨s, e⟩
  rw [hget] at ho
  cases e with
  | some e =>
    simp at ho
    subst ho
    exact ⟨⟨cid, rfl, rfl⟩, fun _ => Or.inl rfl⟩
  | none =>
    cases s with
    | none =>
      simp at ho
      subst ho
      exact ⟨⟨cid, rfl, rfl⟩, fun hne => absurd rfl hne⟩
    | some source =>
      simp only at ho
      rcases hset : d.Set h.reject "path"
        (Value.list ((getThirdPartyPathAttributes source.ThirdPartyRef.Resources).map Value.map))
        with ⟨d1, e1⟩
      rw [hset] at ho
      cases e1 with
      | some e1 =>
        simp at ho
        subst ho
        exact ⟨⟨cid, rfl, rfl⟩, fun _ => Or.inl (Set_rejected _ _ _ _ _ _ hset)⟩
      | none =>
        simp only at ho
        cases hread : h.resourceSumologicSourceRead d1 source.Source with
        | none => simp [hread] at ho
        | some r =>
          obtain ⟨d2, e2⟩ := r
          rw [hread] at ho
          cases e2 with
          | some e2 =>
            simp at ho
            subst ho
            exact ⟨⟨cid, rfl, rfl⟩, fun _ => Or.inr ⟨_, _, _, _, hread, rfl, rfl⟩⟩
          | none =>
            simp at ho
            subst ho
            exact ⟨⟨cid, rfl, rfl⟩, fun hne => absurd rfl hne⟩

/-- The polling source Read returns when the collector identifier is an integer
and the generic source read returns. -/
theorem polling_read_returns (h : Host) (c : Client) (d : ResourceData) (t : List Call)
    (cid : Int) (hcid : d.Get "collector_id" = Value.int cid)
    (hread : ∀ d1 src, h.resourceSumologicSourceRead d1 src ≠ none) :
    ∃ o, resourceSumologicPollingSourceRead h c d t = some o := by
  unfold resourceSumologicPollingSourceRead
  simp only [hcid, Value.asInt]
  rcases c.GetPollingSource t cid (Atoi d.Id).1 with ⟨_ | source, _ | e⟩
  · exact ⟨_, rfl⟩
  · exact ⟨_, rfl⟩
  · dsimp only
    rcases d.Set h.reject "path"
      (Value.list ((getThirdPartyPathAttributes source.ThirdPartyRef.Resources).map Value.map))
      with ⟨d1, _ | e1⟩
    · dsimp only
      cases hr : h.resourceSumologicSourceRead d1 source.Source with
      | none => exact absurd hr (hread _ _)
      | some r =>
        obtain ⟨d2, _ | e2⟩ := r
        · exact ⟨_, rfl⟩
        · exact ⟨_, rfl⟩
    · exact ⟨_, rfl⟩
  · exact ⟨_, rfl⟩

/-! ## Read after a remote deletion -/

/-- C6: for both handlers, when the client's get call returns no object and no
error, Read sets the identifier to the empty string and returns no error (for
the polling source the get call is made with the collector identifier and the
parsed resource identifier). -/
theorem read_after_remote_deletion (h : Host) (c : Client) (d : ResourceData)
    (t : List Call) :
    (c.GetIngestBudgetV2 t d.Id = (none, none) →
      resourceSumologicIngestBudgetV2Read h c d t =
        some ⟨d.SetId "", t ++ [Call.getIngestBudgetV2 d.Id], none⟩) ∧
    (∀ cid, d.Get "collector_id" = Value.int cid →
      c.GetPollingSource t cid (Atoi d.Id).1 = (none, none) →
      resourceSumologicPollingSourceRead h c d t =
        some ⟨d.SetId "", t ++ [Call.getPollingSource cid (Atoi d.Id).1], none⟩) ∧
    (d.SetId "").Id = "" := by
  refine ⟨?_, ?_, rfl⟩
  · intro hget
    simp only [resourceSumologicIngestBudgetV2Read, hget]
  · intro cid hcid hget
    simp only [resourceSumologicPollingSourceRead, hcid, Value.asInt, hget]

/-- C6 at a budget "b-1" and a source "101" that are gone remotely. -/
theorem read_after_remote_deletion_witness :
    resourceSumologicIngestBudgetV2Read exampleHost goneClient (exampleBudgetResource "b-1") [] =
      some ⟨(exampleBudgetResource "b-1").SetId "", [] ++ [Call.getIngestBudgetV2 "b-1"], none⟩ ∧
    resourceSumologicPollingSourceRead exampleHost goneClient
        (examplePollingResource "101" "AwsS3Bucket" "S3BucketAuthentication") [] =
      some ⟨(examplePollingResource "101" "AwsS3Bucket" "S3BucketAuthentication").SetId "",
            [] ++ [Call.getPollingSource 42
              (Atoi (examplePollingResource "101" "AwsS3Bucket" "S3BucketAuthentication").Id).1],
            none⟩ :=
  ⟨(read_after_remote_deletion exampleHost goneClient (exampleBudgetResource "b-1") []).1 rfl,
   (read_after_remote_deletion exampleHost goneClient
      (examplePollingResource "101" "AwsS3Bucket" "S3BucketAuthentication") []).2.1 42 rfl rfl⟩

/-! ## Ingest budget round trip -/

/-- C7: on a resource whose eight ingest budget attributes are of their schema
types, `resourceToIngestBudgetV2` returns a record carrying the eight values and
the resource identifier, and writing that record back with the attribute writes
of Read leaves every attribute, and the identifier, as it was.  The write-back
does store the record: on any target resource, under a host that accepts the
writes, the eight attributes read back as the original values, every other
attribute and the identifier of the target are untouched. -/
theorem ingest_budget_roundtrip (h : Host) (d : ResourceData)
    (name scope timezone resetTime description action : String)
    (auditThreshold capacityBytes : Int)
    (hname : d.Get "name" = Value.str name) (hscope : d.Get "scope" = Value.str scope)
    (htz : d.Get "timezone" = Value.str timezone)
    (hreset : d.Get "reset_time" = Value.str resetTime)
    (haudit : d.Get "audit_threshold" = Value.int auditThreshold)
    (hdesc : d.Get "description" = Value.str description)
    (haction : d.Get "action" = Value.str action)
    (hcap : d.Get "capacity_bytes" = Value.int capacityBytes) :
    ∃ b, resourceToIngestBudgetV2 d = some b ∧
      b = { ID := d.Id, Name := name, Scope := scope, Timezone := timezone,
            ResetTime := resetTime, AuditThreshold := auditThreshold,
            Description := description, Action := action, CapacityBytes := capacityBytes } ∧
      b.ID = d.Id ∧
      (∀ k, (writeIngestBudgetV2 h d b).Get k = d.Get k) ∧
      (writeIngestBudgetV2 h d b).Id = d.Id ∧
      (∀ target : ResourceData, (∀ k v, h.reject k v = none) →
        (∀ k, k ∈ ingestBudgetKeys → (writeIngestBudgetV2 h target b).Get k = d.Get k) ∧
        (writeIngestBudgetV2 h target b).Get "name" = Value.str name ∧
        (writeIngestBudgetV2 h target b).Get "scope" = Value.str scope ∧
        (writeIngestBudgetV2 h target b).Get "timezone" = Value.str timezone ∧
        (writeIngestBudgetV2 h target b).Get "reset_time" = Value.str resetTime ∧
        (writeIngestBudgetV2 h target b).Get "audit_threshold" = Value.int auditThreshold ∧
        (writeIngestBudgetV2 h target b).Get "description" = Value.str description ∧
        (writeIngestBudgetV2 h target b).Get "action" = Value.str action ∧
        (writeIngestBudgetV2 h target b).Get "capacity_bytes" = Value.int capacityBytes ∧
        (∀ k, k ∉ ingestBudgetKeys → (writeIngestBudgetV2 h target b).Get k = target.Get k) ∧
        (writeIngestBudgetV2 h target b).Id = target.Id) := by
  refine ⟨_, ?_, rfl, rfl, ?_, ?_, ?_⟩
  · simp [resourceToIngestBudgetV2, hname, hscope, htz, hreset, haudit, hdesc, haction, hcap,
      Value.asString, Value.asInt]
  · intro k
    simp only [writeIngestBudgetV2, Get_Set]
    split_ifs <;> simp_all
  · simp only [writeIngestBudgetV2, Id_Set]
  · intro target hacc
    refine ⟨?_, ?_, ?_, ?_, ?_, ?_, ?_, ?_, ?_, ?_, ?_⟩
    · intro k hk
      simp only [ingestBudgetKeys, List.mem_cons, List.mem_singleton, List.not_mem_nil,
        or_false] at hk
      rcases hk with rfl | rfl | rfl | rfl | rfl | rfl | rfl | rfl <;>
        simp [writeIngestBudgetV2, Get_Set, hacc, hname, hscope, htz, hreset, haudit, hdesc,
          haction, hcap]
    · simp [writeIngestBudgetV2, Get_Set, hacc]
    · simp [writeIngestBudgetV2, Get_Set, hacc]
    · simp [writeIngestBudgetV2, Get_Set, hacc]
    · simp [writeIngestBudgetV2, Get_Set, hacc]
    · simp [writeIngestBudgetV2, Get_Set, hacc]
    · simp [writeIngestBudgetV2, Get_Set, hacc]
    · simp [writeIngestBudgetV2, Get_Set, hacc]
    · simp [writeIngestBudgetV2, Get_Set, hacc]
    · intro k hk
      simp only [ingestBudgetKeys, List.mem_cons, List.mem_singleton, List.not_mem_nil,
        or_false, not_or] at hk
      obtain ⟨h1, h2, h3, h4, h5, h6, h7, h8⟩ := hk
      simp [writeIngestBudgetV2, Get_Set, h1, h2, h3, h4, h5, h6, h7, h8]
    · simp only [writeIngestBudgetV2, Id_Set]

/-- C7 at the example budget: the record built from it, written into a resource
that holds no attribute yet, gives the eight attributes back. -/
theorem ingest_budget_roundtrip_witness :
    ∃ b, resourceToIngestBudgetV2 (exampleBudgetResource "b-1") = some b ∧
      b = exampleBudget "b-1" ∧
      (∀ k, (writeIngestBudgetV2 exampleHost (exampleBudgetResource "b-1") b).Get k =
        (exampleBudgetResource "b-1").Get k) ∧
      (∀ k, k ∈ ingestBudgetKeys →
        (writeIngestBudgetV2 exampleHost (blankBudgetResource "b-1") b).Get k =
          (exampleBudgetResource "b-1").Get k) ∧
      (writeIngestBudgetV2 exampleHost (blankBudgetResource "b-1") b).Get "name" =
        Value.str "dev" ∧
      (writeIngestBudgetV2 exampleHost (blankBudgetResource "b-1") b).Get "capacity_bytes" =
        Value.int 30000000000 :=
  match ingest_budget_roundtrip exampleHost (exampleBudgetResource "b-1") "dev"
    "_sourceCategory=dev/*" "Etc/UTC" "00:00" "" "keepCollecting" 85 30000000000
    rfl rfl rfl rfl rfl rfl rfl rfl with
  | ⟨b, hb, hrec, _, hsame, _, hpin⟩ =>
    ⟨b, hb, hrec, hsame, (hpin (blankBudgetResource "b-1") (fun _ _ => rfl)).1,
      (hpin (blankBudgetResource "b-1") (fun _ _ => rfl)).2.1,
      (hpin (blankBudgetResource "b-1") (fun _ _ => rfl)).2.2.2.2.2.2.2.2.1⟩

/-! ## Errors and the resource data -/

/-- C8 (as stated, refuted): the ingest budget Create, on a resource without
identifier and a client whose create call succeeds with "b-1" and whose get call
fails, returns the error of the get call with the identifier "b-1" stored, so
the resource data after the call differs from the data before it.  Likewise the
polling source Update, when the generic source read fails, returns that error
with the fetched path (here the empty list) already written. -/
theorem create_error_keeps_new_id :
    (resourceSumologicIngestBudgetV2Create exampleHost getFailsClient
        (exampleBudgetResource "") [] =
      some ⟨exampleBudgetResource "b-1",
            [Call.createIngestBudgetV2 (exampleBudget ""), Call.getIngestBudgetV2 "b-1"],
            some "503 Service Unavailable"⟩ ∧
     (exampleBudgetResource "b-1").Id = "b-1" ∧ (exampleBudgetResource "").Id = "" ∧
     exampleBudgetResource "b-1" ≠ exampleBudgetResource "") ∧
    (∃ o, resourceSumologicPollingSourceUpdate failingReadHost foundClient
        (examplePollingResource "101" "AwsS3Bucket" "S3BucketAuthentication") [] = some o ∧
      o.err = some "source read failed" ∧
      o.d.Get "path" = Value.list [] ∧
      (examplePollingResource "101" "AwsS3Bucket" "S3BucketAuthentication").Get "path" =
        Value.list [Value.map (pathBlock "S3BucketPathExpression" "logs" "*.log" [] [] [])] ∧
      o.d ≠ examplePollingResource "101" "AwsS3Bucket" "S3BucketAuthentication") := by
  refine ⟨⟨rfl, rfl, rfl, ?_⟩, ⟨_, rfl, rfl, rfl, rfl, ?_⟩⟩
  · intro heq
    have hid := congrArg ResourceData.id heq
    simp [exampleBudgetResource] at hid
  · intro heq
    have hpath := congrArg (fun d => d.Get "path") heq
    change Value.list [] =
      Value.list [Value.map (pathBlock "S3BucketPathExpression" "logs" "*.log" [] [] [])]
      at hpath
    simp at hpath

/-- C8 (amended): when Create or Update of either handler returns an error, the
resource data after the call equals the data before it, with two exceptions: a
Create whose create call succeeded returns with the new identifier stored and
nothing else changed, and a polling source callback whose error is the one of
the generic source read returns the data that helper left.  The ingest budget
Update has no exception. -/
theorem error_leaves_state (h : Host) (c : Client) (d : ResourceData) (t : List Call)
    (o : Outcome) (herr : o.err ≠ none) :
    (resourceSumologicIngestBudgetV2Update h c d t = some o → o.d = d) ∧
    (resourceSumologicIngestBudgetV2Create h c d t = some o →
      o.d = d ∨ (d.Id = "" ∧ ∃ b id, resourceToIngestBudgetV2 d = some b ∧
        c.CreateIngestBudgetV2 t b = (id, none) ∧ o.d = d.SetId id)) ∧
    (resourceSumologicPollingSourceUpdate h c d t = some o →
      o.d = d ∨ sourceReadFailed h o) ∧
    (resourceSumologicPollingSourceCreate h c d t = some o →
      o.d = d ∨
      (d.Id = "" ∧ ∃ src cid n, resourceToPollingSource h d = some (src, none) ∧
        d.Get "collector_id" = Value.int cid ∧
        c.CreatePollingSource t src cid = (n, none) ∧ o.d = d.SetId (Itoa n)) ∨
      sourceReadFailed h o) := by
  have ingestRead : ∀ d' t', resourceSumologicIngestBudgetV2Read h c d' t' = some o →
      o.d = d' := by
    intro d' t' ho
    obtain ⟨o', ho', _, hd'⟩ := ingest_read_returns h c d' t'
    rw [ho'] at ho
    cases ho
    exact hd' herr
  have pollingRead : ∀ d' t', resourceSumologicPollingSourceRead h c d' t' = some o →
      o.d = d' ∨ sourceReadFailed h o :=
    fun d' t' ho => (polling_read_outcome h c d' t' o ho).2 herr
  refine ⟨?_, ?_, ?_, ?_⟩
  · intro ho
    unfold resourceSumologicIngestBudgetV2Update at ho
    cases hb : resourceToIngestBudgetV2 d with
    | none => simp [hb] at ho
    | some b =>
      simp only [hb] at ho
      cases hu : c.UpdateIngestBudgetV2 t b with
      | some e =>
        simp only [hu, Option.some.injEq] at ho
        subst ho
        rfl
      | none =>
        simp only [hu] at ho
        exact ingestRead _ _ ho
  · intro ho
    unfold resourceSumologicIngestBudgetV2Create at ho
    by_cases hid : d.Id = ""
    · simp only [hid, if_true] at ho
      cases hb : resourceToIngestBudgetV2 d with
      | none => simp [hb] at ho
      | some b =>
        simp only [hb] at ho
        rcases hcr : c.CreateIngestBudgetV2 t b with ⟨id, _ | e⟩
        · simp only [hcr] at ho
          exact Or.inr ⟨hid, b, id, rfl, hcr, ingestRead _ _ ho⟩
        · simp only [hcr, Option.some.injEq] at ho
          subst ho
          exact Or.inl rfl
    · simp only [hid, if_false] at ho
      exact Or.inl (ingestRead _ _ ho)
  · intro ho
    unfold resourceSumologicPollingSourceUpdate at ho
    cases hsrc : resourceToPollingSource h d with
    | none => simp [hsrc] at ho
    | some r =>
      obtain ⟨src, _ | e⟩ := r
      · simp only [hsrc] at ho
        cases hcid : (d.Get "collector_id").asInt with
        | none => simp [hcid] at ho
        | some cid =>
          simp only [hcid] at ho
          cases hu : c.UpdatePollingSource t src cid with
          | some e =>
            simp only [hu, Option.some.injEq] at ho
            subst ho
            exact Or.inl rfl
          | none =>
            simp only [hu] at ho
            exact pollingRead _ _ ho
      · simp only [hsrc, Option.some.injEq] at ho
        subst ho
        exact Or.inl rfl
  · intro ho
    unfold resourceSumologicPollingSourceCreate at ho
    by_cases hid : d.Id = ""
    · simp only [hid, if_true] at ho
      cases hsrc : resourceToPollingSource h d with
      | none => simp [hsrc] at ho
      | some r =>
        obtain ⟨src, _ | e⟩ := r
        · simp only [hsrc] at ho
          cases hv : d.Get "collector_id" <;> simp only [hv, Value.asInt] at ho <;>
            try (exact absurd ho (by simp))
          rename_i cid
          rcases hcr : c.CreatePollingSource t src cid with ⟨n, _ | e⟩
          · simp only [hcr] at ho
            rcases pollingRead _ _ ho with hd' | hfail
            · exact Or.inr (Or.inl ⟨hid, src, cid, n, rfl, rfl, hcr, hd'⟩)
            · exact Or.inr (Or.inr hfail)
          · simp only [hcr, Option.some.injEq] at ho
            subst ho
            exact Or.inl rfl
        · simp only [hsrc, Option.some.injEq] at ho
          subst ho
          exact Or.inl rfl
    · simp only [hid, if_false] at ho
      rcases pollingRead _ _ ho with hd' | hfail
      · exact Or.inl hd'
      · exact Or.inr (Or.inr hfail)

/-- C8 (amended) at the failing get: the ingest budget Update on budget "b-1"
returns the error and leaves the resource data untouched, while the Create on a
resource without identifier returns it with the identifier "b-1" stored. -/
theorem error_leaves_state_witness :
    (resourceSumologicIngestBudgetV2Update exampleHost getFailsClient
        (exampleBudgetResource "b-1") [] =
      some ⟨exampleBudgetResource "b-1",
            [Call.updateIngestBudgetV2 (exampleBudget "b-1"), Call.getIngestBudgetV2 "b-1"],
            some "503 Service Unavailable"⟩ ∧
     (⟨exampleBudgetResource "b-1",
        [Call.updateIngestBudgetV2 (exampleBudget "b-1"), Call.getIngestBudgetV2 "b-1"],
        some "503 Service Unavailable"⟩ : Outcome).d = exampleBudgetResource "b-1") ∧
    (resourceSumologicIngestBudgetV2Create exampleHost getFailsClient
        (exampleBudgetResource "") [] =
      some ⟨exampleBudgetResource "b-1",
            [Call.createIngestBudgetV2 (exampleBudget ""), Call.getIngestBudgetV2 "b-1"],
            some "503 Service Unavailable"⟩ ∧
     ((⟨exampleBudgetResource "b-1",
        [Call.createIngestBudgetV2 (exampleBudget ""), Call.getIngestBudgetV2 "b-1"],
        some "503 Service Unavailable"⟩ : Outcome).d = exampleBudgetResource "" ∨
      ((exampleBudgetResource "").Id = "" ∧ ∃ b id,
        resourceToIngestBudgetV2 (exampleBudgetResource "") = some b ∧
        getFailsClient.CreateIngestBudgetV2 [] b = (id, none) ∧
        (⟨exampleBudgetResource "b-1",
          [Call.createIngestBudgetV2 (exampleBudget ""), Call.getIngestBudgetV2 "b-1"],
          some "503 Service Unavailable"⟩ : Outcome).d = (exampleBudgetResource "").SetId id))) :=
  ⟨⟨rfl, (error_leaves_state exampleHost getFailsClient (exampleBudgetResource "b-1") []
      ⟨exampleBudgetResource "b-1",
        [Call.updateIngestBudgetV2 (exampleBudget "b-1"), Call.getIngestBudgetV2 "b-1"],
        some "503 Service Unavailable"⟩ (by simp)).1 rfl⟩,
   ⟨rfl, (error_leaves_state exampleHost getFailsClient (exampleBudgetResource "") []
      ⟨exampleBudgetResource "b-1",
        [Call.createIngestBudgetV2 (exampleBudget ""), Call.getIngestBudgetV2 "b-1"],
        some "503 Service Unavailable"⟩ (by simp)).2.1 rfl⟩⟩

/-! ## The polling source identifier -/

/-- C9: when Create runs on a resource without identifier and the create call
returns the integer `n` (a 64-bit `int`) without error, Create continues as the
Read of the resource whose identifier is the decimal string of `n`; parsing that
identifier gives `n` back without error, so the calls of Create are the create
call followed by a get call with source identifier `n`.  Create returns when the
generic source read does. -/
theorem polling_id_survives_boundary (h : Host) (c : Client) (d : ResourceData)
    (t : List Call) (src : PollingSource) (cid n : Int)
    (hid : d.Id = "") (hsrc : resourceToPollingSource h d = some (src, none))
    (hcid : d.Get "collector_id" = Value.int cid)
    (hcreate : c.CreatePollingSource t src cid = (n, none))
    (hlo : -(2 ^ 63) ≤ n) (hhi : n < 2 ^ 63) :
    resourceSumologicPollingSourceCreate h c d t =
      resourceSumologicPollingSourceRead h c (d.SetId (Itoa n))
        (t ++ [Call.createPollingSource src cid]) ∧
    (d.SetId (Itoa n)).Id = Itoa n ∧
    Atoi (d.SetId (Itoa n)).Id = (n, none) ∧
    (∀ o, resourceSumologicPollingSourceCreate h c d t = some o →
      o.calls = t ++ [Call.createPollingSource src cid, Call.getPollingSource cid n]) ∧
    ((∀ d1 s, h.resourceSumologicSourceRead d1 s ≠ none) →
      ∃ o, resourceSumologicPollingSourceCreate h c d t = some o) := by
  have hstep : resourceSumologicPollingSourceCreate h c d t =
      resourceSumologicPollingSourceRead h c (d.SetId (Itoa n))
        (t ++ [Call.createPollingSource src cid]) := by
    simp only [resourceSumologicPollingSourceCreate, hid, if_true, hsrc, hcid, Value.asInt,
      hcreate]
  have hparse : Atoi (d.SetId (Itoa n)).Id = (n, none) := Atoi_Itoa n hlo hhi
  have hcid' : (d.SetId (Itoa n)).Get "collector_id" = Value.int cid := hcid
  refine ⟨hstep, rfl, hparse, ?_, ?_⟩
  · intro o ho
    rw [hstep] at ho
    obtain ⟨⟨cid', hc', hcalls⟩, _⟩ := polling_read_outcome h c _ _ o ho
    rw [hcid'] at hc'
    cases hc'
    rw [hcalls, hparse]
    simp
  · intro hread
    rw [hstep]
    exact polling_read_returns h c _ _ cid hcid' hread

/-- C9 at the example source: the create call returns 101. -/
theorem polling_id_survives_boundary_witness :
    resourceSumologicPollingSourceCreate exampleHost goneClient
        (examplePollingResource "" "AwsS3Bucket" "S3BucketAuthentication") [] =
      resourceSumologicPollingSourceRead exampleHost goneClient
        ((examplePollingResource "" "AwsS3Bucket" "S3BucketAuthentication").SetId (Itoa 101))
        ([] ++ [Call.createPollingSource examplePollingSource 42]) ∧
    Atoi ((examplePollingResource "" "AwsS3Bucket" "S3BucketAuthentication").SetId
      (Itoa 101)).Id = (101, none) ∧
    (∀ o, resourceSumologicPollingSourceCreate exampleHost goneClient
        (examplePollingResource "" "AwsS3Bucket" "S3BucketAuthentication") [] = some o →
      o.calls = [] ++ [Call.createPollingSource examplePollingSource 42,
        Call.getPollingSource 42 101]) ∧
    (∃ o, resourceSumologicPollingSourceCreate exampleHost goneClient
        (examplePollingResource "" "AwsS3Bucket" "S3BucketAuthentication") [] = some o) :=
  ⟨(polling_id_survives_boundary exampleHost goneClient
      (examplePollingResource "" "AwsS3Bucket" "S3BucketAuthentication") []
      examplePollingSource 42 101 rfl rfl rfl rfl (by norm_num) (by norm_num)).1,
   (polling_id_survives_boundary exampleHost goneClient
      (examplePollingResource "" "AwsS3Bucket" "S3BucketAuthentication") []
      examplePollingSource 42 101 rfl rfl rfl rfl (by norm_num) (by norm_num)).2.2.1,
   (polling_id_survives_boundary exampleHost goneClient
      (examplePollingResource "" "AwsS3Bucket" "S3BucketAuthentication") []
      examplePollingSource 42 101 rfl rfl rfl rfl (by norm_num) (by norm_num)).2.2.2.1,
   (polling_id_survives_boundary exampleHost goneClient
      (examplePollingResource "" "AwsS3Bucket" "S3BucketAuthentication") []
      examplePollingSource 42 101 rfl rfl rfl rfl (by norm_num) (by norm_num)).2.2.2.2
      (fun _ _ hnone => Option.noConfusion hnone)⟩

/-! ## Which callbacks end with Read -/

/-- C10 (as stated, refuted): the ingest budget Delete makes the delete call and
nothing else; its calls are not a delete call followed by a get call. -/
theorem delete_makes_no_get_call :
    resourceSumologicIngestBudgetV2Delete exampleHost goneClient
        (exampleBudgetResource "b-1") [] =
      some ⟨exampleBudgetResource "b-1", [Call.deleteIngestBudgetV2 "b-1"], none⟩ ∧
    [Call.deleteIngestBudgetV2 "b-1"] ≠
      [Call.deleteIngestBudgetV2 "b-1", Call.getIngestBudgetV2 "b-1"] := by
  refine ⟨rfl, ?_⟩
  simp

/-- C10 (amended): the ingest budget Create and Update, once their client call
has succeeded, finish by performing Read (Create on the resource with the new
identifier stored, or at once when the resource already has an identifier);
Read makes one get call by the resource identifier and writes a fetched record
back; Delete makes the delete call only, returns its error and leaves the
resource data untouched. -/
theorem ingest_callbacks_and_read (h : Host) (c : Client) (d : ResourceData)
    (t : List Call) :
    (∀ b id, d.Id = "" → resourceToIngestBudgetV2 d = some b →
      c.CreateIngestBudgetV2 t b = (id, none) →
      resourceSumologicIngestBudgetV2Create h c d t =
        resourceSumologicIngestBudgetV2Read h c (d.SetId id)
          (t ++ [Call.createIngestBudgetV2 b])) ∧
    (d.Id ≠ "" →
      resourceSumologicIngestBudgetV2Create h c d t =
        resourceSumologicIngestBudgetV2Read h c d t) ∧
    (∀ b, resourceToIngestBudgetV2 d = some b → c.UpdateIngestBudgetV2 t b = none →
      resourceSumologicIngestBudgetV2Update h c d t =
        resourceSumologicIngestBudgetV2Read h c d (t ++ [Call.updateIngestBudgetV2 b])) ∧
    (∃ o, resourceSumologicIngestBudgetV2Read h c d t = some o ∧
      o.calls = t ++ [Call.getIngestBudgetV2 d.Id] ∧
      ∀ b, c.GetIngestBudgetV2 t d.Id = (some b, none) →
        o.d = writeIngestBudgetV2 h d b ∧ o.err = none) ∧
    resourceSumologicIngestBudgetV2Delete h c d t =
      some ⟨d, t ++ [Call.deleteIngestBudgetV2 d.Id], c.DeleteIngestBudgetV2 t d.Id⟩ := by
  refine ⟨?_, ?_, ?_, ?_, rfl⟩
  · intro b id hid hb hcr
    simp only [resourceSumologicIngestBudgetV2Create, hid, if_true, hb, hcr]
  · intro hid
    simp only [resourceSumologicIngestBudgetV2Create, hid, if_false]
  · intro b hb hu
    simp only [resourceSumologicIngestBudgetV2Update, hb, hu]
  · obtain ⟨o, ho, hcalls, _⟩ := ingest_read_returns h c d t
    refine ⟨o, ho, hcalls, ?_⟩
    intro b hget
    simp only [resourceSumologicIngestBudgetV2Read, hget, Option.some.injEq] at ho
    subst ho
    exact ⟨rfl, rfl⟩

/-- C10 (amended) at the example budget: Create without identifier, Update and
Create with identifier "b-1", on a client whose calls succeed. -/
theorem ingest_callbacks_and_read_witness :
    resourceSumologicIngestBudgetV2Create exampleHost goneClient (exampleBudgetResource "") [] =
      resourceSumologicIngestBudgetV2Read exampleHost goneClient
        ((exampleBudgetResource "").SetId "b-1")
        ([] ++ [Call.createIngestBudgetV2 (exampleBudget "")]) ∧
    resourceSumologicIngestBudgetV2Create exampleHost goneClient
        (exampleBudgetResource "b-1") [] =
      resourceSumologicIngestBudgetV2Read exampleHost goneClient
        (exampleBudgetResource "b-1") [] ∧
    resourceSumologicIngestBudgetV2Update exampleHost goneClient
        (exampleBudgetResource "b-1") [] =
      resourceSumologicIngestBudgetV2Read exampleHost goneClient (exampleBudgetResource "b-1")
        ([] ++ [Call.updateIngestBudgetV2 (exampleBudget "b-1")]) :=
  ⟨(ingest_callbacks_and_read exampleHost goneClient (exampleBudgetResource "") []).1
      (exampleBudget "") "b-1" rfl rfl rfl,
   (ingest_callbacks_and_read exampleHost goneClient (exampleBudgetResource "b-1") []).2.1
      (by decide),
   (ingest_callbacks_and_read exampleHost goneClient (exampleBudgetResource "b-1") []).2.2.1
      (exampleBudget "b-1") rfl rfl⟩
end Sumologic
